import Mathlib

/-!
Shallow embedding of the core of the hacker-news-summarizer repository
(src/components/hn_fetcher.py and src/pipeline.py) and proofs about it.

Python dictionaries are modelled as association lists over a small JSON
value type `JVal`; Python `None` is `JVal.jnull`, absence of a key is
`List.lookup _ = none`.  Fallible external calls (network fetches, the
trafilatura extractor, the OpenAI generation call) are oracles supplied
through environment records; an exception absorbed by a try/except in the
source is an `Option`/`Except` failure of the oracle.  An exception the
source does NOT catch (the `datetime.fromtimestamp` call in
`_process_story`) is an `Except.error` of the embedded function itself.
-/

set_option autoImplicit false

/-- JSON-ish values stored in the Python dictionaries of the source:
strings, integers and None. -/
inductive JVal where
  | jstr (s : String)
  | jint (n : Int)
  | jnull
deriving DecidableEq

/-- A fetched Hacker News item-details dictionary (the parsed JSON object
returned by `_fetch_story_details`). -/
abbrev Details := List (String × JVal)

/-- Python truthiness of a `JVal`: empty string, zero and None are falsy. -/
def JVal.truthy : JVal → Bool
  | .jstr s => s != ""
  | .jint n => n != 0
  | .jnull => false

/-- Python subscription `d[k]`, used by the source only where the key was
checked to be present; defaults to None otherwise. -/
def dItem (d : Details) (k : String) : JVal := (d.lookup k).getD JVal.jnull

/-- Two-digit zero padding, as %02d in CPython datetime formatting. -/
def pad2 (n : Nat) : String := if n < 10 then "0" ++ toString n else toString n

/-- Four-digit zero padding for the year, as %04d. -/
def pad4 (n : Nat) : String :=
  let s := toString n
  if s.length >= 4 then s else String.mk (List.replicate (4 - s.length) '0') ++ s

/-- Proleptic Gregorian date (year, month, day) of a day count relative to
1970-01-01, the civil-from-days algorithm used by CPython datetime. -/
def civilFromDays (z0 : Int) : Int × Nat × Nat :=
  let z : Int := z0 + 719468
  let era : Int := Int.fdiv z 146097
  let doe : Nat := (z - era * 146097).toNat
  let yoe : Nat := (doe - doe / 1460 + doe / 36524 - doe / 146096) / 365
  let doy : Nat := doe - (365 * yoe + yoe / 4 - yoe / 100)
  let mp : Nat := (5 * doy + 2) / 153
  let d : Nat := doy - (153 * mp + 2) / 5 + 1
  let m : Nat := if mp < 10 then mp + 3 else mp - 9
  (era * 400 + (yoe : Int) + (if m <= 2 then 1 else 0), m, d)

/-- Rendering of `datetime.fromtimestamp(t, tz=timezone.utc).isoformat()`
for an integer epoch-seconds value `t`: an ISO-8601 UTC timestamp such as
1970-01-01T00:00:00+00:00. -/
def fromtimestampUtcIso (t : Int) : String :=
  let days : Int := Int.fdiv t 86400
  let sod : Nat := (t - days * 86400).toNat
  let ymd := civilFromDays days
  pad4 ymd.1.toNat ++ "-" ++ pad2 ymd.2.1 ++ "-" ++ pad2 ymd.2.2 ++ "T" ++
    pad2 (sod / 3600) ++ ":" ++ pad2 (sod % 3600 / 60) ++ ":" ++ pad2 (sod % 60) ++ "+00:00"

/-- A Haystack Document as built by `_process_story`: extracted article
text plus a metadata dictionary. -/
structure Document where
  content : String
  meta : List (String × JVal)
deriving DecidableEq

example : fromtimestampUtcIso 0 = "1970-01-01T00:00:00+00:00" := by decide

/-- Environment of external effects consumed by one `HackerNewsNewestFetcher`
run.  `indexFetch` is the single newstories.json call of `_run_async`
(`none` covers every absorbed failure: ClientError, timeout, any other
exception).  `fetchDetails` is `_fetch_story_details` (`none` on any
absorbed failure or a null response body).  `fetchUrl` is `_fetch_url`
applied to the value stored under the url key (`none` on any absorbed
failure).  `trafilaturaExtract` is `trafilatura.extract` on the fetched
page (`Except.error` when the library call raises, otherwise its return
value, which may be None). -/
structure FetchEnv where
  indexFetch : Option (List Int)
  fetchDetails : Int → Option Details
  fetchUrl : JVal → Option String
  trafilaturaExtract : String → Except Unit (Option String)

/-- Embedding of `_extract_article_text`: fetch the page, treat a missing
or empty page as failure, run trafilatura, and treat a raised exception,
a None result or an empty result as failure. -/
def extract_article_text (env : FetchEnv) (url : JVal) : Option String :=
  match env.fetchUrl url with
  | none => none
  | some html_content =>
    if html_content = "" then none
    else
      match env.trafilaturaExtract html_content with
      | .error _ => none
      | .ok none => none
      | .ok (some extracted_text) =>
        if extracted_text = "" then none else some extracted_text

/-- Embedding of the timestamp line of `_process_story`: when the time key
is present, `datetime.fromtimestamp(details["time"], tz=timezone.utc)`
renders it; a present non-integer value makes that call raise, an
exception nothing in the source catches (`Except.error`). -/
def timeIsoOf (details : Details) : Except Unit (Option String) :=
  match details.lookup "time" with
  | none => .ok none
  | some (JVal.jint n) => .ok (some (fromtimestampUtcIso n))
  | some _ => .error ()

/-- The metadata dictionary literal of `_process_story`. -/
def mkMeta (details : Details) (time_iso : Option String) (story_id : Int) :
    List (String × JVal) :=
  [("title", (details.lookup "title").getD JVal.jnull),
   ("url", dItem details "url"),
   ("score", (details.lookup "score").getD (JVal.jint 0)),
   ("descendants", (details.lookup "descendants").getD (JVal.jint 0)),
   ("by", (details.lookup "by").getD JVal.jnull),
   ("time_iso", match time_iso with | none => JVal.jnull | some s => JVal.jstr s),
   ("id", JVal.jint story_id)]

/-- Embedding of `_process_story`: fetch details; skip unless the item is
a truthy dictionary of type story with a present truthy url; convert the
timestamp; extract the article text; skip when extraction fails or yields
empty text; otherwise build the Document. -/
def process_story (env : FetchEnv) (story_id : Int) : Except Unit (Option Document) :=
  match env.fetchDetails story_id with
  | none => .ok none
  | some details =>
    if details = [] ∨ details.lookup "type" ≠ some (JVal.jstr "story") then .ok none
    else if details.lookup "url" = none ∨ (dItem details "url").truthy = false then .ok none
    else
      match timeIsoOf details with
      | .error e => .error e
      | .ok time_iso =>
        match extract_article_text env (dItem details "url") with
        | none => .ok none
        | some article_text =>
          if article_text = "" then .ok none
          else .ok (some { content := article_text, meta := mkMeta details time_iso story_id })

/-- Sequencing of the per-story tasks: `asyncio.gather` returns the task
results in argument order, or propagates an exception when any task
raises. -/
def exceptMapM {α β ε : Type} (f : α → Except ε β) : List α → Except ε (List β)
  | [] => .ok []
  | a :: l =>
    match f a with
    | .error e => .error e
    | .ok b =>
      match exceptMapM f l with
      | .error e => .error e
      | .ok bs => .ok (b :: bs)

/-- Embedding of `_run_async` (and of `HackerNewsNewestFetcher.run`, which
just drives it): an index-fetch failure yields the empty document list;
otherwise the id list is truncated to the first `last_k` entries, every
truncated id is processed, and the skipped (None) results are dropped.
The singleton documents wrapper dictionary of the source is elided. -/
def run_async (env : FetchEnv) (last_k : Nat) : Except Unit (List Document) :=
  match env.indexFetch with
  | none => .ok []
  | some top_story_ids =>
    match exceptMapM (process_story env) (top_story_ids.take last_k) with
    | .error e => .error e
    | .ok processed_documents => .ok (processed_documents.filterMap id)

/-- Values of the per-document result dictionary built by
`DocumentLoopProcessor.run`: the document itself or a summary string. -/
inductive RVal where
  | rdoc (d : Document)
  | rstr (s : String)
deriving DecidableEq

/-- One element of the results list of `DocumentLoopProcessor.run`,
modelled as the key-value dictionary the source literally appends. -/
abbrev SummaryEntry := List (String × RVal)

/-- Outcome of one iteration of the generation try block: `Except.error`
when prompt building or the OpenAI call raised, otherwise the replies
list of the response (the empty list also standing for a missing or falsy
replies entry). -/
abbrev GenOutcome := Except Unit (List String)

/-- Embedding of one iteration of the loop in `DocumentLoopProcessor.run`:
on a raised exception append the error sentinel, on an empty replies list
append the other sentinel, otherwise append the first reply. -/
def summarize_document (outcome : GenOutcome) (doc : Document) : SummaryEntry :=
  match outcome with
  | .error _ => [("document", RVal.rdoc doc), ("summary", RVal.rstr "Error generating summary")]
  | .ok replies =>
    let summary := match replies with
      | [] => "Unable to generate summary"
      | r :: _ => r
    [("document", RVal.rdoc doc), ("summary", RVal.rstr summary)]

/-- The loop of `DocumentLoopProcessor.run` from iteration index `i`
onward; `gen i doc` is the oracle giving the outcome of the generation
attempt made at loop position `i` for document `doc`. -/
def runFrom (gen : Nat → Document → GenOutcome) (i : Nat) :
    List Document → List SummaryEntry
  | [] => []
  | doc :: rest => summarize_document (gen i doc) doc :: runFrom gen (i + 1) rest

/-- Embedding of `DocumentLoopProcessor.run`: process each document in
order, isolating per-document failure. -/
def documentLoopProcessor_run (gen : Nat → Document → GenOutcome)
    (documents : List Document) : List SummaryEntry :=
  runFrom gen 0 documents

/-- Details of a typical linked story (id 101), timestamp present. -/
def detailsA : Details :=
  [("id", JVal.jint 101), ("type", JVal.jstr "story"), ("title", JVal.jstr "A"),
   ("url", JVal.jstr "https://a.example"), ("time", JVal.jint 0),
   ("by", JVal.jstr "alice"), ("score", JVal.jint 7)]

/-- Details of a second linked story (id 103), no time, no score. -/
def detailsB : Details :=
  [("id", JVal.jint 103), ("type", JVal.jstr "story"),
   ("url", JVal.jstr "https://b.example")]

/-- Concrete ingestion environment: ids 101 and 103 are extractable linked
stories, id 102 is a story with no url. -/
def envA : FetchEnv where
  indexFetch := some [101, 102, 103]
  fetchDetails := fun i =>
    if i = 101 then some detailsA
    else if i = 102 then some [("id", JVal.jint 102), ("type", JVal.jstr "story")]
    else if i = 103 then some detailsB
    else none
  fetchUrl := fun v =>
    if v = JVal.jstr "https://a.example" then some "<html>Text A</html>"
    else if v = JVal.jstr "https://b.example" then some "<html>Text B</html>"
    else none
  trafilaturaExtract := fun h =>
    if h = "<html>Text A</html>" then .ok (some "Text A")
    else if h = "<html>Text B</html>" then .ok (some "Text B")
    else .ok none

/-- The Document the concrete environment produces for id 101. -/
def docA : Document where
  content := "Text A"
  meta := [("title", JVal.jstr "A"), ("url", JVal.jstr "https://a.example"),
           ("score", JVal.jint 7), ("descendants", JVal.jint 0),
           ("by", JVal.jstr "alice"),
           ("time_iso", JVal.jstr "1970-01-01T00:00:00+00:00"),
           ("id", JVal.jint 101)]

/-- The Document the concrete environment produces for id 103. -/
def docB : Document where
  content := "Text B"
  meta := [("title", JVal.jnull), ("url", JVal.jstr "https://b.example"),
           ("score", JVal.jint 0), ("descendants", JVal.jint 0),
           ("by", JVal.jnull), ("time_iso", JVal.jnull),
           ("id", JVal.jint 103)]

/-- Concrete ingestion environment whose index fetch fails. -/
def envFail : FetchEnv where
  indexFetch := none
  fetchDetails := fun _ => some detailsA
  fetchUrl := fun _ => some "<html>Text A</html>"
  trafilaturaExtract := fun _ => .ok (some "Text A")

deriving instance DecidableEq for Except

example : process_story envA 101 = .ok (some docA) := by decide
example : process_story envA 102 = .ok none := by decide
example : run_async envA 3 = .ok [docA, docB] := by decide
example : run_async envFail 5 = .ok [] := by decide

theorem runFrom_length (gen : Nat → Document → GenOutcome) (i : Nat)
    (docs : List Document) : (runFrom gen i docs).length = docs.length := by
  induction docs generalizing i with
  | nil => rfl
  | cons d rest ih => simp [runFrom, ih]

theorem runFrom_getElem? (gen : Nat → Document → GenOutcome) (i j : Nat)
    (docs : List Document) :
    (runFrom gen i docs)[j]? =
      (docs[j]?).map (fun d => summarize_document (gen (i + j) d) d) := by
  induction docs generalizing i j with
  | nil => simp [runFrom]
  | cons d rest ih =>
    cases j with
    | zero => simp [runFrom]
    | succ j' =>
      simp only [runFrom, List.getElem?_cons_succ, ih (i + 1) j']
      have : i + 1 + j' = i + (j' + 1) := by omega
      rw [this]

theorem summarize_document_shape (outcome : GenOutcome) (doc : Document) :
    ∃ s : String, summarize_document outcome doc =
      [("document", RVal.rdoc doc), ("summary", RVal.rstr s)] := by
  rcases outcome with e | replies
  · exact ⟨"Error generating summary", rfl⟩
  · rcases replies with _ | ⟨r, rs⟩
    · exact ⟨"Unable to generate summary", rfl⟩
    · exact ⟨r, rfl⟩

theorem exceptMapM_ok_length {α β ε : Type} {f : α → Except ε β} {l : List α}
    {rs : List β} (h : exceptMapM f l = .ok rs) : rs.length = l.length := by
  induction l generalizing rs with
  | nil =>
    simp only [exceptMapM] at h
    cases h
    rfl
  | cons a l ih =>
    simp only [exceptMapM] at h
    cases hfa : f a with
    | error e => rw [hfa] at h; cases h
    | ok b =>
      rw [hfa] at h
      cases hrest : exceptMapM f l with
      | error e => rw [hrest] at h; cases h
      | ok bs =>
        rw [hrest] at h
        cases h
        simp [ih hrest]

theorem exceptMapM_ok_getElem? {α β ε : Type} {f : α → Except ε β} {l : List α}
    {rs : List β} (h : exceptMapM f l = .ok rs) {i : Nat} {x : α}
    (hx : l[i]? = some x) : ∃ y, rs[i]? = some y ∧ f x = .ok y := by
  induction l generalizing rs i with
  | nil => simp at hx
  | cons a l ih =>
    simp only [exceptMapM] at h
    cases hfa : f a with
    | error e => rw [hfa] at h; cases h
    | ok b =>
      rw [hfa] at h
      cases hrest : exceptMapM f l with
      | error e => rw [hrest] at h; cases h
      | ok bs =>
        rw [hrest] at h
        cases h
        cases i with
        | zero =>
          simp only [List.getElem?_cons_zero, Option.some_inj] at hx
          exact ⟨b, by simp, by rw [← hx, hfa]⟩
        | succ i' =>
          simp only [List.getElem?_cons_succ] at hx ⊢
          exact ih hrest hx

theorem exceptMapM_ok_mem {α β ε : Type} {f : α → Except ε β} {l : List α}
    {rs : List β} (h : exceptMapM f l = .ok rs) {y : β} (hy : y ∈ rs) :
    ∃ x, x ∈ l ∧ f x = .ok y := by
  induction l generalizing rs with
  | nil =>
    simp only [exceptMapM] at h
    cases h
    simp at hy
  | cons a l ih =>
    simp only [exceptMapM] at h
    cases hfa : f a with
    | error e => rw [hfa] at h; cases h
    | ok b =>
      rw [hfa] at h
      cases hrest : exceptMapM f l with
      | error e => rw [hrest] at h; cases h
      | ok bs =>
        rw [hrest] at h
        cases h
        rcases List.mem_cons.mp hy with hb | hbs
        · exact ⟨a, List.mem_cons_self a l, by rw [hfa, hb]⟩
        · obtain ⟨x, hxl, hfx⟩ := ih hrest hbs
          exact ⟨x, List.mem_cons_of_mem a hxl, hfx⟩

theorem filterMap_id_exists {α : Type} (l : List (Option α)) (q : Nat) (b : α)
    (hq : l[q]? = some (some b)) : ∃ j : Nat, (l.filterMap id)[j]? = some b := by
  induction l generalizing q with
  | nil => simp at hq
  | cons x xs ih =>
    cases q with
    | zero =>
      simp only [List.getElem?_cons_zero, Option.some_inj] at hq
      subst hq
      exact ⟨0, by simp [List.filterMap_cons]⟩
    | succ q' =>
      simp only [List.getElem?_cons_succ] at hq
      obtain ⟨j', hj'⟩ := ih q' hq
      cases x with
      | none => exact ⟨j', by simpa [List.filterMap_cons] using hj'⟩
      | some c => exact ⟨j' + 1, by simpa [List.filterMap_cons] using hj'⟩

theorem filterMap_id_order {α : Type} (l : List (Option α)) (p q : Nat) (a b : α)
    (hpq : p < q) (hp : l[p]? = some (some a)) (hq : l[q]? = some (some b)) :
    ∃ i j : Nat, i < j ∧ (l.filterMap id)[i]? = some a ∧ (l.filterMap id)[j]? = some b := by
  induction l generalizing p q with
  | nil => simp at hp
  | cons x xs ih =>
    cases p with
    | zero =>
      simp only [List.getElem?_cons_zero, Option.some_inj] at hp
      subst hp
      cases q with
      | zero => omega
      | succ q' =>
        simp only [List.getElem?_cons_succ] at hq
        obtain ⟨j', hj'⟩ := filterMap_id_exists xs q' b hq
        exact ⟨0, j' + 1, by omega, by simp [List.filterMap_cons],
          by simpa [List.filterMap_cons] using hj'⟩
    | succ p' =>
      cases q with
      | zero => omega
      | succ q' =>
        simp only [List.getElem?_cons_succ] at hp hq
        obtain ⟨i, j, hij, hi, hj⟩ := ih p' q' (by omega) hp hq
        cases x with
        | none =>
          exact ⟨i, j, hij, by simpa [List.filterMap_cons] using hi,
            by simpa [List.filterMap_cons] using hj⟩
        | some c =>
          exact ⟨i + 1, j + 1, by omega, by simpa [List.filterMap_cons] using hi,
            by simpa [List.filterMap_cons] using hj⟩


/-- Claim C1, counterexample: at a concrete input where generation
succeeds with reply S1, the single result record of
`documentLoopProcessor_run` has exactly the keys document and summary,
and no failed key, refuting the claim that every result record contains
the fields document, summary and failed. -/
theorem C1_counterexample :
    (documentLoopProcessor_run (fun _ _ => Except.ok ["S1"]) [docA]).length = 1 ∧
    ((documentLoopProcessor_run (fun _ _ => Except.ok ["S1"]) [docA]).headD []).map Prod.fst
      = ["document", "summary"] ∧
    "failed" ∉ ((documentLoopProcessor_run (fun _ _ => Except.ok ["S1"]) [docA]).headD []).map Prod.fst := by
  decide

/-- Claim C1 (amended): each element of the sequence returned by
`documentLoopProcessor_run` is a record with exactly the fields document
and summary (there is no failed field); the summary is the sentinel text
Error generating summary when the generation call raised, the sentinel
text Unable to generate summary when the call returned no replies, and
the first reply on success. -/
theorem C1_result_record_fields (gen : Nat → Document → GenOutcome)
    (docs : List Document) (j : Nat) (doc : Document) (hj : docs[j]? = some doc) :
    ∃ s : String,
      (documentLoopProcessor_run gen docs)[j]? =
        some [("document", RVal.rdoc doc), ("summary", RVal.rstr s)] ∧
      (gen j doc = Except.error () → s = "Error generating summary") ∧
      (gen j doc = Except.ok [] → s = "Unable to generate summary") ∧
      (∀ r : String, ∀ rs : List String, gen j doc = Except.ok (r :: rs) → s = r) := by
  unfold documentLoopProcessor_run
  rw [runFrom_getElem? gen 0 j docs, hj]
  simp only [Option.map_some', Nat.zero_add]
  cases hg : gen j doc with
  | error e =>
    cases e
    refine ⟨"Error generating summary", rfl, fun _ => rfl, ?_, ?_⟩
    · intro hcontra; simp at hcontra
    · intro r rs hcontra; simp at hcontra
  | ok replies =>
    cases replies with
    | nil =>
      refine ⟨"Unable to generate summary", rfl, ?_, fun _ => rfl, ?_⟩
      · intro hcontra; simp at hcontra
      · intro r rs hcontra; simp at hcontra
    | cons r0 rs0 =>
      refine ⟨r0, rfl, ?_, ?_, ?_⟩
      · intro hcontra; simp at hcontra
      · intro hcontra; simp at hcontra
      · intro r rs hr
        simp only [Except.ok.injEq, List.cons.injEq] at hr
        exact hr.1

/-- Claim C1, witness of the amended theorem at a concrete input. -/
theorem C1_witness :
    (([docA] : List Document)[0]? = some docA) ∧
    ∃ s : String,
      (documentLoopProcessor_run (fun _ _ => Except.ok ["S1"]) [docA])[0]? =
        some [("document", RVal.rdoc docA), ("summary", RVal.rstr s)] :=
  ⟨rfl, by
    obtain ⟨s, h1, _⟩ :=
      C1_result_record_fields (fun _ _ => Except.ok ["S1"]) [docA] 0 docA rfl
    exact ⟨s, h1⟩⟩

/-- Claim C4: for every generation oracle and every input document list,
including the empty one, `documentLoopProcessor_run` returns exactly one
result per input document, at the same position, carrying that document. -/
theorem C4_length_and_order (gen : Nat → Document → GenOutcome)
    (docs : List Document) :
    (documentLoopProcessor_run gen docs).length = docs.length ∧
    ∀ j : Nat, ∀ doc : Document, docs[j]? = some doc →
      ∃ s : String, (documentLoopProcessor_run gen docs)[j]? =
        some [("document", RVal.rdoc doc), ("summary", RVal.rstr s)] := by
  constructor
  · exact runFrom_length gen 0 docs
  · intro j doc hj
    unfold documentLoopProcessor_run
    rw [runFrom_getElem? gen 0 j docs, hj]
    simp only [Option.map_some', Nat.zero_add]
    obtain ⟨s, hs⟩ := summarize_document_shape (gen j doc) doc
    exact ⟨s, by rw [hs]⟩

/-- Claim C4, witness at the empty list and at a singleton list. -/
theorem C4_witness :
    (documentLoopProcessor_run (fun _ _ => Except.ok []) []).length = 0 ∧
    (documentLoopProcessor_run (fun _ _ => Except.ok []) [docA]).length = 1 ∧
    ∃ s : String, (documentLoopProcessor_run (fun _ _ => Except.ok []) [docA])[0]? =
      some [("document", RVal.rdoc docA), ("summary", RVal.rstr s)] :=
  ⟨(C4_length_and_order (fun _ _ => Except.ok []) []).1,
   (C4_length_and_order (fun _ _ => Except.ok []) [docA]).1,
   (C4_length_and_order (fun _ _ => Except.ok []) [docA]).2 0 docA rfl⟩

/-- Claim C6: per document, a raised generation call yields the sentinel
Error generating summary, a success with no replies yields the sentinel
Unable to generate summary, a success with replies yields the first
reply; and the loop always continues, producing one result per input. -/
theorem C6_generation_outcomes (gen : Nat → Document → GenOutcome)
    (docs : List Document) (j : Nat) (doc : Document) (hj : docs[j]? = some doc) :
    ((gen j doc = Except.error () →
        (documentLoopProcessor_run gen docs)[j]? =
          some [("document", RVal.rdoc doc),
                ("summary", RVal.rstr "Error generating summary")]) ∧
      (gen j doc = Except.ok [] →
        (documentLoopProcessor_run gen docs)[j]? =
          some [("document", RVal.rdoc doc),
                ("summary", RVal.rstr "Unable to generate summary")]) ∧
      (∀ r : String, ∀ rs : List String, gen j doc = Except.ok (r :: rs) →
        (documentLoopProcessor_run gen docs)[j]? =
          some [("document", RVal.rdoc doc), ("summary", RVal.rstr r)])) ∧
    (documentLoopProcessor_run gen docs).length = docs.length := by
  refine ⟨⟨?_, ?_, ?_⟩, runFrom_length gen 0 docs⟩
  · intro hg
    unfold documentLoopProcessor_run
    rw [runFrom_getElem? gen 0 j docs, hj]
    simp only [Option.map_some', Nat.zero_add]
    rw [hg]
    rfl
  · intro hg
    unfold documentLoopProcessor_run
    rw [runFrom_getElem? gen 0 j docs, hj]
    simp only [Option.map_some', Nat.zero_add]
    rw [hg]
    rfl
  · intro r rs hg
    unfold documentLoopProcessor_run
    rw [runFrom_getElem? gen 0 j docs, hj]
    simp only [Option.map_some', Nat.zero_add]
    rw [hg]
    rfl

/-- Claim C6, witness: three concrete runs exercising the raised, empty
and successful generation outcomes. -/
theorem C6_witness :
    (([docA] : List Document)[0]? = some docA) ∧
    (documentLoopProcessor_run (fun _ _ => Except.error ()) [docA])[0]? =
      some [("document", RVal.rdoc docA),
            ("summary", RVal.rstr "Error generating summary")] ∧
    (documentLoopProcessor_run (fun _ _ => Except.ok []) [docA])[0]? =
      some [("document", RVal.rdoc docA),
            ("summary", RVal.rstr "Unable to generate summary")] ∧
    (documentLoopProcessor_run (fun _ _ => Except.ok ["S2"]) [docA])[0]? =
      some [("document", RVal.rdoc docA), ("summary", RVal.rstr "S2")] :=
  ⟨rfl,
   ((C6_generation_outcomes (fun _ _ => Except.error ()) [docA] 0 docA rfl).1.1 rfl),
   ((C6_generation_outcomes (fun _ _ => Except.ok []) [docA] 0 docA rfl).1.2.1 rfl),
   ((C6_generation_outcomes (fun _ _ => Except.ok ["S2"]) [docA] 0 docA rfl).1.2.2 "S2" [] rfl)⟩

/-- Claim C7: two runs of the loop over the same documents whose
generation oracles agree everywhere except at position i produce
identical results at every position other than i. -/
theorem C7_failure_isolation (g1 g2 : Nat → Document → GenOutcome)
    (docs : List Document) (i : Nat)
    (hagree : ∀ j : Nat, j ≠ i → ∀ d : Document, g1 j d = g2 j d) :
    ∀ j : Nat, j ≠ i →
      (documentLoopProcessor_run g1 docs)[j]? =
        (documentLoopProcessor_run g2 docs)[j]? := by
  intro j hji
  unfold documentLoopProcessor_run
  rw [runFrom_getElem? g1 0 j docs, runFrom_getElem? g2 0 j docs]
  cases hd : docs[j]? with
  | none => rfl
  | some d => simp only [Option.map_some', Nat.zero_add, hagree j hji d]

/-- Claim C7, witness: a failure injected at position 0 leaves the result
at position 1 unchanged. -/
theorem C7_witness :
    ((1 : Nat) ≠ 0) ∧
    (documentLoopProcessor_run (fun j _ => if j = 0 then Except.error () else Except.ok ["S2"]) [docA, docB])[1]? =
      (documentLoopProcessor_run (fun _ _ => Except.ok ["S2"]) [docA, docB])[1]? :=
  ⟨by decide,
   C7_failure_isolation
     (fun j _ => if j = 0 then Except.error () else Except.ok ["S2"])
     (fun _ _ => Except.ok ["S2"]) [docA, docB] 0
     (fun j hj _ => by simp [hj]) 1 (by decide)⟩

theorem process_story_ok_some {env : FetchEnv} {sid : Int} {doc : Document}
    (h : process_story env sid = .ok (some doc)) :
    ∃ details : Details, env.fetchDetails sid = some details ∧
    ∃ time_iso : Option String,
      details ≠ [] ∧
      details.lookup "type" = some (JVal.jstr "story") ∧
      details.lookup "url" ≠ none ∧
      (dItem details "url").truthy = true ∧
      timeIsoOf details = .ok time_iso ∧
      ∃ article_text : String,
        extract_article_text env (dItem details "url") = some article_text ∧
        article_text ≠ "" ∧
        doc = { content := article_text, meta := mkMeta details time_iso sid } := by
  unfold process_story at h
  cases hd : env.fetchDetails sid with
  | none => rw [hd] at h; simp at h
  | some details =>
    rw [hd] at h
    dsimp only at h
    refine ⟨details, rfl, ?_⟩
    by_cases hc1 : details = [] ∨ details.lookup "type" ≠ some (JVal.jstr "story")
    · rw [if_pos hc1] at h; simp at h
    · rw [if_neg hc1] at h
      push_neg at hc1
      by_cases hc2 : details.lookup "url" = none ∨ (dItem details "url").truthy = false
      · rw [if_pos hc2] at h; simp at h
      · rw [if_neg hc2] at h
        push_neg at hc2
        cases ht : timeIsoOf details with
        | error e => rw [ht] at h; simp at h
        | ok time_iso =>
          rw [ht] at h
          dsimp only at h
          cases hx : extract_article_text env (dItem details "url") with
          | none => rw [hx] at h; simp at h
          | some article_text =>
            rw [hx] at h
            dsimp only at h
            by_cases he : article_text = ""
            · rw [if_pos he] at h; simp at h
            · rw [if_neg he] at h
              simp only [Except.ok.injEq, Option.some.injEq] at h
              exact ⟨time_iso, hc1.1, hc1.2, hc2.1,
                Bool.ne_false_iff.mp hc2.2, rfl,
                article_text, rfl, he, h.symm⟩

/-- Claim C2: a Document comes out of `process_story` only when the
fetched details have type story, a present truthy url, and the article
extraction succeeded with the (necessarily non-empty) text that becomes
the content of the Document. -/
theorem C2_document_production_conditions (env : FetchEnv) (sid : Int) (doc : Document)
    (h : process_story env sid = Except.ok (some doc)) :
    ∃ details : Details, env.fetchDetails sid = some details ∧
      details.lookup "type" = some (JVal.jstr "story") ∧
      details.lookup "url" ≠ none ∧
      (dItem details "url").truthy = true ∧
      extract_article_text env (dItem details "url") = some doc.content ∧
      doc.content ≠ "" := by
  obtain ⟨details, hd, time_iso, _, htype, hurl, htr, _, article_text, hx, hne, hdoc⟩ :=
    process_story_ok_some h
  subst hdoc
  exact ⟨details, hd, htype, hurl, htr, hx, hne⟩

/-- Claim C2, witness at the concrete environment, story id 101. -/
theorem C2_witness :
    process_story envA 101 = Except.ok (some docA) ∧
    ∃ details : Details, envA.fetchDetails 101 = some details ∧
      details.lookup "type" = some (JVal.jstr "story") ∧
      details.lookup "url" ≠ none ∧
      (dItem details "url").truthy = true ∧
      extract_article_text envA (dItem details "url") = some docA.content ∧
      docA.content ≠ "" :=
  ⟨by decide, C2_document_production_conditions envA 101 docA (by decide)⟩

/-- Claim C3: when ids a and b survive at positions p before q of the
truncated index list, the Document of a sits before the Document of b in
the output of `run_async`. -/
theorem C3_order_preservation (env : FetchEnv) (k : Nat) (ids : List Int)
    (p q : Nat) (a b : Int) (da db : Document) (docs : List Document)
    (hids : env.indexFetch = some ids) (hpq : p < q)
    (hpa : (ids.take k)[p]? = some a) (hqb : (ids.take k)[q]? = some b)
    (hda : process_story env a = Except.ok (some da))
    (hdb : process_story env b = Except.ok (some db))
    (hrun : run_async env k = Except.ok docs) :
    ∃ i j : Nat, i < j ∧ docs[i]? = some da ∧ docs[j]? = some db := by
  unfold run_async at hrun
  rw [hids] at hrun
  dsimp only at hrun
  cases hm : exceptMapM (process_story env) (ids.take k) with
  | error e => rw [hm] at hrun; simp at hrun
  | ok rs =>
    rw [hm] at hrun
    simp only [Except.ok.injEq] at hrun
    subst hrun
    obtain ⟨ya, hya, hfa⟩ := exceptMapM_ok_getElem? hm hpa
    obtain ⟨yb, hyb, hfb⟩ := exceptMapM_ok_getElem? hm hqb
    rw [hda] at hfa
    rw [hdb] at hfb
    simp only [Except.ok.injEq] at hfa hfb
    subst hfa
    subst hfb
    exact filterMap_id_order rs p q da db hpq hya hyb

/-- Claim C3, witness: ids 101 and 103 survive around the skipped id 102
and come out in index order. -/
theorem C3_witness :
    (0 : Nat) < 2 ∧
    run_async envA 3 = Except.ok [docA, docB] ∧
    ∃ i j : Nat, i < j ∧ ([docA, docB] : List Document)[i]? = some docA ∧
      ([docA, docB] : List Document)[j]? = some docB :=
  ⟨by decide, by decide,
   C3_order_preservation envA 3 [101, 102, 103] 0 2 101 103 docA docB [docA, docB]
     rfl (by decide) (by decide) (by decide) (by decide) (by decide) (by decide)⟩

/-- Claim C5: an index-fetch failure makes `run_async` return the empty
document list without error, whatever the per-id oracles would do. -/
theorem C5_index_fetch_failure (env : FetchEnv) (k : Nat)
    (h : env.indexFetch = none) : run_async env k = Except.ok [] := by
  unfold run_async
  rw [h]

/-- Claim C5, witness at the environment whose index fetch fails. -/
theorem C5_witness :
    envFail.indexFetch = none ∧ run_async envFail 5 = Except.ok [] :=
  ⟨rfl, C5_index_fetch_failure envFail 5 rfl⟩

/-- Claim C8: a successful `run_async` with limit k, k at least one,
returns at most k Documents. -/
theorem C8_output_bounded_by_k (env : FetchEnv) (k : Nat) (docs : List Document)
    (_hk : 1 ≤ k) (hrun : run_async env k = Except.ok docs) : docs.length ≤ k := by
  unfold run_async at hrun
  cases hi : env.indexFetch with
  | none =>
    rw [hi] at hrun
    simp only [Except.ok.injEq] at hrun
    subst hrun
    simp
  | some ids =>
    rw [hi] at hrun
    dsimp only at hrun
    cases hm : exceptMapM (process_story env) (ids.take k) with
    | error e => rw [hm] at hrun; simp at hrun
    | ok rs =>
      rw [hm] at hrun
      simp only [Except.ok.injEq] at hrun
      subst hrun
      calc (rs.filterMap id).length ≤ rs.length := List.length_filterMap_le id rs
        _ = (ids.take k).length := exceptMapM_ok_length hm
        _ ≤ k := by rw [List.length_take]; exact Nat.min_le_left _ _

/-- Claim C8, witness: three requested, two returned. -/
theorem C8_witness :
    (1 : Nat) ≤ 3 ∧
    run_async envA 3 = Except.ok [docA, docB] ∧
    ([docA, docB] : List Document).length ≤ 3 :=
  ⟨by decide, by decide,
   C8_output_bounded_by_k envA 3 [docA, docB] (by decide) (by decide)⟩

/-- Claim C9: in a Document built by `process_story`, a present integer
time field is stored as its ISO-8601 UTC rendering under the time_iso
metadata key, and an absent time field is stored as None there, the
Document not being skipped. -/
theorem C9_timestamp_rendering (env : FetchEnv) (sid : Int) (details : Details)
    (doc : Document) (hd : env.fetchDetails sid = some details)
    (h : process_story env sid = Except.ok (some doc)) :
    (∀ n : Int, details.lookup "time" = some (JVal.jint n) →
      doc.meta.lookup "time_iso" = some (JVal.jstr (fromtimestampUtcIso n))) ∧
    (details.lookup "time" = none →
      doc.meta.lookup "time_iso" = some JVal.jnull) := by
  obtain ⟨details', hd', time_iso, _, _, _, _, ht, article_text, _, _, hdoc⟩ :=
    process_story_ok_some h
  rw [hd] at hd'
  simp only [Option.some.injEq] at hd'
  subst hd'
  subst hdoc
  constructor
  · intro n hn
    unfold timeIsoOf at ht
    rw [hn] at ht
    simp only [Except.ok.injEq] at ht
    subst ht
    rfl
  · intro hn
    unfold timeIsoOf at ht
    rw [hn] at ht
    simp only [Except.ok.injEq] at ht
    subst ht
    rfl

/-- Claim C9, witness: id 101 has an integer time stored rendered, id 103
has no time and a None time_iso, both Documents produced. -/
theorem C9_witness :
    (envA.fetchDetails 101 = some detailsA ∧
     process_story envA 101 = Except.ok (some docA) ∧
     detailsA.lookup "time" = some (JVal.jint 0) ∧
     docA.meta.lookup "time_iso" = some (JVal.jstr (fromtimestampUtcIso 0))) ∧
    (envA.fetchDetails 103 = some detailsB ∧
     process_story envA 103 = Except.ok (some docB) ∧
     detailsB.lookup "time" = none ∧
     docB.meta.lookup "time_iso" = some JVal.jnull) :=
  ⟨⟨by decide, by decide, by decide,
    (C9_timestamp_rendering envA 101 detailsA docA (by decide) (by decide)).1 0 (by decide)⟩,
   ⟨by decide, by decide, by decide,
    (C9_timestamp_rendering envA 103 detailsB docB (by decide) (by decide)).2 (by decide)⟩⟩

/-- Claim C10: every Document returned by `run_async` has a metadata
dictionary with exactly the seven keys title, url, score, descendants,
by, time_iso and id, in which id is the story id the unit was launched
for, url is the truthy url of the fetched details, and score and
descendants fall back to zero when absent from the details. -/
theorem C10_metadata_exact_shape (env : FetchEnv) (k : Nat) (docs : List Document)
    (doc : Document) (hrun : run_async env k = Except.ok docs) (hmem : doc ∈ docs) :
    ∃ ids : List Int, env.indexFetch = some ids ∧
    ∃ sid : Int, sid ∈ ids.take k ∧
    ∃ details : Details, env.fetchDetails sid = some details ∧
      doc.meta.map Prod.fst = ["title", "url", "score", "descendants", "by", "time_iso", "id"] ∧
      doc.meta.lookup "id" = some (JVal.jint sid) ∧
      doc.meta.lookup "url" = details.lookup "url" ∧
      (dItem details "url").truthy = true ∧
      (details.lookup "score" = none → doc.meta.lookup "score" = some (JVal.jint 0)) ∧
      (details.lookup "descendants" = none → doc.meta.lookup "descendants" = some (JVal.jint 0)) := by
  unfold run_async at hrun
  cases hi : env.indexFetch with
  | none =>
    rw [hi] at hrun
    simp only [Except.ok.injEq] at hrun
    subst hrun
    simp at hmem
  | some ids =>
    rw [hi] at hrun
    dsimp only at hrun
    cases hm : exceptMapM (process_story env) (ids.take k) with
    | error e => rw [hm] at hrun; simp at hrun
    | ok rs =>
      rw [hm] at hrun
      simp only [Except.ok.injEq] at hrun
      subst hrun
      rw [List.mem_filterMap] at hmem
      obtain ⟨o, ho, hido⟩ := hmem
      simp only [id_eq] at hido
      subst hido
      obtain ⟨sid, hsid, hps⟩ := exceptMapM_ok_mem hm ho
      obtain ⟨details, hd, time_iso, _, _, hurl, htr, _, article_text, _, _, hdoc⟩ :=
        process_story_ok_some hps
      subst hdoc
      refine ⟨ids, rfl, sid, hsid, details, hd, rfl, rfl, ?_, htr, ?_, ?_⟩
      · obtain ⟨u, hu⟩ := Option.ne_none_iff_exists'.mp hurl
        have hlu : (mkMeta details time_iso sid).lookup "url" = some (dItem details "url") := rfl
        rw [hlu, hu]
        unfold dItem
        rw [hu]
        rfl
      · intro hs
        have hls : (mkMeta details time_iso sid).lookup "score"
            = some ((details.lookup "score").getD (JVal.jint 0)) := rfl
        rw [hls, hs]
        rfl
      · intro hs
        have hls : (mkMeta details time_iso sid).lookup "descendants"
            = some ((details.lookup "descendants").getD (JVal.jint 0)) := rfl
        rw [hls, hs]
        rfl

/-- Claim C10, witness at the concrete run producing two Documents. -/
theorem C10_witness :
    run_async envA 3 = Except.ok [docA, docB] ∧
    docA ∈ ([docA, docB] : List Document) ∧
    ∃ ids : List Int, envA.indexFetch = some ids ∧
    ∃ sid : Int, sid ∈ ids.take 3 ∧
    ∃ details : Details, envA.fetchDetails sid = some details ∧
      docA.meta.map Prod.fst = ["title", "url", "score", "descendants", "by", "time_iso", "id"] ∧
      docA.meta.lookup "id" = some (JVal.jint sid) ∧
      docA.meta.lookup "url" = details.lookup "url" ∧
      (dItem details "url").truthy = true ∧
      (details.lookup "score" = none → docA.meta.lookup "score" = some (JVal.jint 0)) ∧
      (details.lookup "descendants" = none → docA.meta.lookup "descendants" = some (JVal.jint 0)) :=
  ⟨by decide, by decide,
   C10_metadata_exact_shape envA 3 [docA, docB] docA (by decide) (by decide)⟩
